import Mathlib

/-!
Shallow embedding of the `env-flag` repository.

The embedding follows the current revision of the library source
(`src/unnamed/part_000`, the `EnvFlag` class): the environment resolver
(`getCurrentEnvironment`, `detectEnvironment`, `getNodeEnv`, `getCustomEnv`,
`isValidEnvironmentString`) and the indicator lifecycle (`init`, `destroy`,
`updateConfig`, `createFlag`, `attachEventListeners`, `removeEventListeners`,
`removeFlagElement`), together with the deferred `requestAnimationFrame`
insertion step.  Environment values travel as strings, as they do at
JavaScript runtime; host signals (hostname, `import.meta.env`, `process.env`)
are modelled as an explicit `Host` record.  Debug logging is a side channel
with no effect on results and is elided.
-/

namespace EnvFlag

/-- JavaScript string truthiness: a string is truthy iff it is nonempty. -/
def jsTruthy (s : String) : Bool := !(s == "")

/-- JavaScript `a || b` on strings. -/
def jsOr (a b : String) : String := if jsTruthy a then a else b

/-- JS `String.prototype.includes`, on character lists: does `pat` occur as a
contiguous substring? -/
def includesList (pat : List Char) : List Char → Bool
  | [] => pat.isPrefixOf []
  | c :: cs => pat.isPrefixOf (c :: cs) || includesList pat cs

/-- `s.includes(pat)` from JS. -/
def strIncludes (s pat : String) : Bool := includesList pat.toList s.toList

/-- The four recognized environment names, in the order the source lists them
in `isValidEnvironmentString`. -/
def envNames : List String := ["development", "production", "staging", "test"]

/-- `isValidEnvironmentString` from the source:
`["development", "production", "staging", "test"].includes(env)`. -/
def isValidEnvironmentString (env : String) : Bool := envNames.contains env

/-- Host signals consumed by the library.  `viteEnv` models `import.meta.env`
(absent or falsy collapses to `none`); `procEnv` models
`globalThis.process?.env`.  A lookup returning `""` models an absent or empty
variable (both are falsy in JS). -/
structure Host where
  hasWindow : Bool
  hasDocument : Bool
  hasBody : Bool
  hostname : String
  viteEnv : Option (String → String)
  procEnv : Option (String → String)

/-- The fixed priority list of custom environment variables scanned by
`getCustomEnv`. -/
def customEnvVars : List String :=
  ["VITE_APP_NODE_ENV", "VITE_APP_ENV", "VITE_ENV", "REACT_APP_NODE_ENV",
   "REACT_APP_ENV", "VUE_APP_NODE_ENV", "VUE_APP_ENV"]

/-- One scan of an environment record for `getCustomEnv`: the first variable
in `customEnvVars` whose value is truthy and a recognized environment name. -/
def scanCustom (env : String → String) : Option String :=
  customEnvVars.findSome? fun v =>
    if jsTruthy (env v) && isValidEnvironmentString (env v) then some (env v)
    else none

/-- The `process.env` half of `getCustomEnv`. -/
def procCustomEnv (h : Host) : String :=
  match h.procEnv with
  | some env => (scanCustom env).getD ""
  | none => ""

/-- `getCustomEnv` from the source: scan `import.meta.env` for the custom
variables, then `process.env`; return `""` when nothing matches. -/
def getCustomEnv (h : Host) : String :=
  match h.viteEnv with
  | some env =>
    match scanCustom env with
    | some v => v
    | none => procCustomEnv h
  | none => procCustomEnv h

/-- The `process.env.NODE_ENV` half of `getNodeEnv`. -/
def procNodeEnv (h : Host) : String :=
  match h.procEnv with
  | some env =>
    if jsTruthy (env "NODE_ENV") && isValidEnvironmentString (env "NODE_ENV")
    then env "NODE_ENV" else ""
  | none => ""

/-- `getNodeEnv` from the source: `import.meta.env.NODE_ENV ||
import.meta.env.VITE_NODE_ENV` when valid, else `process.env.NODE_ENV` when
valid, else `""`. -/
def getNodeEnv (h : Host) : String :=
  match h.viteEnv with
  | some env =>
    let viteEnv := jsOr (env "NODE_ENV") (env "VITE_NODE_ENV")
    if jsTruthy viteEnv && isValidEnvironmentString viteEnv then viteEnv
    else procNodeEnv h
  | none => procNodeEnv h

/-- The hostname block (Priority 3) of `detectEnvironment`, exactly as in the
source: production first (a `"prod"` substring, or a nonempty hostname with
none of the five markers), then staging, then test, else development. -/
def hostnameHeuristic (hostname : String) : String :=
  if strIncludes hostname "prod"
     || (!strIncludes hostname "localhost"
         && !strIncludes hostname "127.0.0.1"
         && !strIncludes hostname "dev"
         && !strIncludes hostname "staging"
         && !strIncludes hostname "test"
         && !(hostname.length == 0)) then "production"
  else if strIncludes hostname "staging" || strIncludes hostname "stage" then
    "staging"
  else if strIncludes hostname "test" then "test"
  else "development"

/-- `detectEnvironment` from the source: custom variable, then the generic
`NODE_ENV` signal, then the hostname heuristic.  (`userAgent` is read by the
source but unused in decision logic and is elided.) -/
def detectEnvironment (h : Host) : String :=
  let customEnv := getCustomEnv h
  let nodeEnv := getNodeEnv h
  if jsTruthy customEnv then customEnv
  else if jsTruthy nodeEnv then nodeEnv
  else hostnameHeuristic h.hostname

/-- The resolved configuration record (`Required<Omit<EnvFlagConfig,
"forceEnv">> & Pick<EnvFlagConfig, "forceEnv">`). -/
structure Config where
  productionColor : String
  developmentColor : String
  stagingColor : String
  testColor : String
  productionText : String
  developmentText : String
  stagingText : String
  testText : String
  position : String
  size : String
  autoDetectEnv : Bool
  forceEnv : Option String
  enabled : Bool
  debug : Bool
deriving DecidableEq

/-- A partial configuration (`EnvFlagConfig` / `Partial<EnvFlagConfig>`):
`none` models an absent key. -/
structure ConfigP where
  productionColor : Option String := none
  developmentColor : Option String := none
  stagingColor : Option String := none
  testColor : Option String := none
  productionText : Option String := none
  developmentText : Option String := none
  stagingText : Option String := none
  testText : Option String := none
  position : Option String := none
  size : Option String := none
  autoDetectEnv : Option Bool := none
  forceEnv : Option String := none
  enabled : Option Bool := none
  debug : Option Bool := none

/-- `EnvFlag.DEFAULT_CONFIG` from the source (no `forceEnv` key, modelled as
`none`). -/
def DEFAULT_CONFIG : Config :=
  { productionColor := "#f8285a", developmentColor := "#17c653",
    stagingColor := "#f39c12", testColor := "#9b59b6",
    productionText := "PROD", developmentText := "DEV",
    stagingText := "STAGING", testText := "TEST",
    position := "bottom-right", size := "medium",
    autoDetectEnv := true, forceEnv := none, enabled := true, debug := false }

/-- `Object.assign(config, partial)` / spread-merge: every key present in the
partial overwrites the corresponding field, every absent key leaves it. -/
def mergeConfig (c : Config) (p : ConfigP) : Config :=
  { productionColor := p.productionColor.getD c.productionColor,
    developmentColor := p.developmentColor.getD c.developmentColor,
    stagingColor := p.stagingColor.getD c.stagingColor,
    testColor := p.testColor.getD c.testColor,
    productionText := p.productionText.getD c.productionText,
    developmentText := p.developmentText.getD c.developmentText,
    stagingText := p.stagingText.getD c.stagingText,
    testText := p.testText.getD c.testText,
    position := p.position.getD c.position,
    size := p.size.getD c.size,
    autoDetectEnv := p.autoDetectEnv.getD c.autoDetectEnv,
    forceEnv := match p.forceEnv with | some v => some v | none => c.forceEnv,
    enabled := p.enabled.getD c.enabled,
    debug := p.debug.getD c.debug }

/-- The constructor: `this.config = { ...EnvFlag.DEFAULT_CONFIG, ...config }`. -/
def mkConfig (p : ConfigP) : Config := mergeConfig DEFAULT_CONFIG p

/-- `getCurrentEnvironment` from the source: the `forceEnv` override when
truthy, else `development` when auto-detect is off, else detection. -/
def getCurrentEnvironment (cfg : Config) (h : Host) : String :=
  if jsTruthy (cfg.forceEnv.getD "") then cfg.forceEnv.getD ""
  else if !cfg.autoDetectEnv then "development"
  else detectEnvironment h

/-- A browser host with no bundler environment variables set. -/
def hostNoSignals (name : String) : Host :=
  { hasWindow := true, hasDocument := true, hasBody := true,
    hostname := name, viteEnv := none, procEnv := none }

/-- The hostname heuristic in the order claim C1 states it: staging first
(on `"staging"` or `"stage"`), then test (on `"test"`), then production (on
a nonempty hostname containing none of the five markers; no `"prod"`
check), else development.  Written from the claim, to be compared with
`hostnameHeuristic`, which is embedded from the source. -/
def hostnameHeuristicClaimC1 (hostname : String) : String :=
  if strIncludes hostname "staging" || strIncludes hostname "stage" then
    "staging"
  else if strIncludes hostname "test" then "test"
  else if !strIncludes hostname "localhost"
       && !strIncludes hostname "127.0.0.1"
       && !strIncludes hostname "dev"
       && !strIncludes hostname "staging"
       && !strIncludes hostname "test"
       && !(hostname.length == 0) then "production"
  else "development"

/-- The hostname heuristic as claim C1 must be amended to match the source:
production first — on a `"prod"` substring, or on a nonempty hostname
containing none of `"localhost"`, `"127.0.0.1"`, `"dev"`, `"staging"`,
`"test"` — then staging on `"staging"` or `"stage"`, then test on `"test"`,
else development (including the empty hostname). -/
def hostnameHeuristicAmendedC1 (hostname : String) : String :=
  if strIncludes hostname "prod"
     || (!strIncludes hostname "localhost"
         && !strIncludes hostname "127.0.0.1"
         && !strIncludes hostname "dev"
         && !strIncludes hostname "staging"
         && !strIncludes hostname "test"
         && !(hostname.length == 0)) then "production"
  else if strIncludes hostname "staging" || strIncludes hostname "stage" then
    "staging"
  else if strIncludes hostname "test" then "test"
  else "development"

/-- A host whose custom variable, generic `NODE_ENV` signal and hostname all
point at different environments (staging, production and test). -/
def hostC2 : Host :=
  { hasWindow := true, hasDocument := true, hasBody := true,
    hostname := "test.example.com",
    viteEnv := some (fun v =>
      if v == "VITE_APP_ENV" then "staging"
      else if v == "NODE_ENV" then "production" else ""),
    procEnv := none }

/-- A host carrying an unrecognized custom-variable value (`"prod"` is not
one of the four environment names and must be skipped). -/
def hostC10 : Host :=
  { hasWindow := true, hasDocument := true, hasBody := true,
    hostname := "localhost",
    viteEnv := some (fun v => if v == "VITE_APP_ENV" then "prod" else ""),
    procEnv := none }

/-- The mutable state of one `EnvFlag` component instance together with the
document it owns.  Element identity is a natural number allocated by
`nextId`; `body` lists the indicator elements currently inserted in
`document.body`; `pending` counts scheduled `requestAnimationFrame`
callbacks (every scheduled callback reads `this.flagElement` afresh when it
fires, so all pending callbacks behave identically). -/
structure LState where
  flagElement : Option Nat
  eventListeners : List (Nat × String)
  body : List Nat
  pending : Nat
  nextId : Nat
  config : Config
deriving DecidableEq

/-- `isValidEnvironment` from the source: window and document both defined. -/
def isValidEnvironment (h : Host) : Bool := h.hasWindow && h.hasDocument

/-- `removeEventListeners`: deregister everything, `this.eventListeners = []`. -/
def removeEventListeners (s : LState) : LState := { s with eventListeners := [] }

/-- `removeFlagElement`: `if (this.flagElement && document.body?.contains(this.flagElement))`
remove the element from the body and null the field; otherwise do nothing
(in particular, a non-inserted element is NOT nulled). -/
def removeFlagElement (h : Host) (s : LState) : LState :=
  match s.flagElement with
  | some e =>
    if h.hasBody && s.body.contains e then
      { s with body := s.body.erase e, flagElement := none }
    else s
  | none => s

/-- `destroy` from the source: remove listeners, then the element. -/
def destroy (h : Host) (s : LState) : LState :=
  removeFlagElement h (removeEventListeners s)

/-- `attachEventListeners`: push the click, mouseenter, mouseleave and keydown
registrations for the current flag element. -/
def attachEventListeners (s : LState) : LState :=
  match s.flagElement with
  | some e =>
    { s with eventListeners := s.eventListeners ++
        [(e, "click"), (e, "mouseenter"), (e, "mouseleave"), (e, "keydown")] }
  | none => s

/-- `createFlag`: allocate a fresh element into `this.flagElement`, attach the
listeners, and schedule the deferred insertion (`requestAnimationFrame`).
Attribute and style assignment is pure decoration and elided. -/
def createFlag (s : LState) : LState :=
  let e := s.nextId
  let s1 := { s with flagElement := some e, nextId := e + 1 }
  let s2 := attachEventListeners s1
  { s2 with pending := s2.pending + 1 }

/-- `init` from the source: guard on environment validity and `enabled`, then
destroy any existing flag and create a new one. -/
def init (h : Host) (s : LState) : LState :=
  if !isValidEnvironment h then s
  else if !s.config.enabled then s
  else createFlag (destroy h s)

/-- `updateConfig` from the source: `Object.assign(this.config, newConfig)`
followed by `this.init()`. -/
def updateConfig (h : Host) (s : LState) (p : ConfigP) : LState :=
  init h { s with config := mergeConfig s.config p }

/-- DOM `appendChild` on the body: moves the node to the end (a node already
in the document is re-parented, never duplicated). -/
def appendChildMove (b : List Nat) (e : Nat) : List Nat := b.erase e ++ [e]

/-- Firing one scheduled `requestAnimationFrame` callback:
`if (this.flagElement && document.body) document.body.appendChild(this.flagElement)`. -/
def fireFrame (h : Host) (s : LState) : LState :=
  if s.pending = 0 then s
  else
    let s1 := { s with pending := s.pending - 1 }
    match s1.flagElement with
    | some e => if h.hasBody then { s1 with body := appendChildMove s1.body e } else s1
    | none => s1

/-- Fire every currently pending animation-frame callback. -/
def flushFrames (h : Host) (s : LState) : LState := (fireFrame h)^[s.pending] s

/-- The state of a freshly constructed component (`new EnvFlag(config)`):
no element, no listeners, nothing in the document, nothing scheduled. -/
def freshState (cfg : Config) : LState :=
  { flagElement := none, eventListeners := [], body := [], pending := 0,
    nextId := 0, config := cfg }

/-- Well-formedness of a component state against its host: the document holds
either no indicator element or exactly the one currently referenced by
`flagElement`, and nothing is inserted when the host has no `document.body`. -/
def WF (h : Host) (s : LState) : Prop :=
  (s.body = [] ∨ ∃ e, s.flagElement = some e ∧ s.body = [e]) ∧
  (h.hasBody = false → s.body = [])

/-- A state holding an indicator element inserted by a previous `init`, with
the component configured disabled. -/
def disabledPresentState : LState :=
  { flagElement := some 0, eventListeners := [], body := [0], pending := 0,
    nextId := 1, config := mkConfig { enabled := some false } }

/-- Exception-aware element creation, for the `src/src/index.ts` variant of
`init` (the one wrapped in `try`/`catch`).  `fault` injects a host failure
at `document.createElement`, the first DOM operation inside the `try`
block; `Except.error` carries the state at the point of the throw, since
JavaScript mutations made before a throw persist.  (`createElement` for a
`"div"` cannot fail in a healthy browser; the flag models the spec's
"unexpected" host exceptions, e.g. a broken document surface.) -/
def createFlagE (fault : Bool) (s : LState) : Except LState LState :=
  if fault then Except.error s else Except.ok (createFlag s)

/-- The body of the `try` block of `init` in `src/src/index.ts`: guards, then
`this.destroy()`, then `this.createFlag()`.  An `Except.error` result is an
exception that would reach the caller if uncaught. -/
def initBody (fault : Bool) (h : Host) (s : LState) : Except LState LState :=
  if !isValidEnvironment h then Except.ok s
  else if !s.config.enabled then Except.ok s
  else createFlagE fault (destroy h s)

/-- `init` from `src/src/index.ts` with its top-level `catch`: a thrown
exception is logged (side channel, elided) and swallowed, leaving the state
as it was at the throw. -/
def initCatch (fault : Bool) (h : Host) (s : LState) : LState :=
  match initBody fault h s with
  | Except.ok s1 => s1
  | Except.error s1 => s1

/-! ### Helper lemmas about the resolver -/

theorem mem_envNames_of_valid {s : String} (h : isValidEnvironmentString s = true) :
    s ∈ envNames :=
  List.mem_of_elem_eq_true h

theorem ne_empty_of_mem_envNames {s : String} (h : s ∈ envNames) : s ≠ "" := by
  simp only [envNames, List.mem_cons, List.mem_singleton] at h
  rcases h with rfl | rfl | rfl | rfl | h <;> simp_all

theorem findSomeIf_valid (f : String → String) :
    ∀ (l : List String) (v : String),
      (l.findSome? fun x =>
        if jsTruthy (f x) && isValidEnvironmentString (f x) then some (f x)
        else none) = some v →
      isValidEnvironmentString v = true := by
  intro l
  induction l with
  | nil => intro v hv; simp [List.findSome?] at hv
  | cons a t ih =>
    intro v hv
    rw [List.findSome?_cons] at hv
    by_cases hc : (jsTruthy (f a) && isValidEnvironmentString (f a)) = true
    · simp only [hc, if_true] at hv
      cases hv
      exact (Bool.and_eq_true _ _ |>.mp hc).2
    · simp only [hc, Bool.false_eq_true, if_false] at hv
      exact ih v hv

theorem scanCustom_valid {env : String → String} {v : String}
    (h : scanCustom env = some v) : isValidEnvironmentString v = true :=
  findSomeIf_valid env customEnvVars v h

theorem procCustomEnv_eq_valid {h : Host} {v : String} (he : procCustomEnv h = v)
    (hne : v ≠ "") : isValidEnvironmentString v = true := by
  unfold procCustomEnv at he
  split at he
  next env _ =>
    cases hs : scanCustom env with
    | none => rw [hs] at he; simp at he; exact absurd he.symm hne
    | some w =>
      rw [hs] at he; simp at he; rw [← he]; exact scanCustom_valid hs
  next => exact absurd he.symm hne

theorem getCustomEnv_eq_valid {h : Host} {v : String} (he : getCustomEnv h = v)
    (hne : v ≠ "") : isValidEnvironmentString v = true := by
  unfold getCustomEnv at he
  split at he
  next env _ =>
    cases hs : scanCustom env with
    | none => rw [hs] at he; exact procCustomEnv_eq_valid he hne
    | some w => rw [hs] at he; rw [← he]; exact scanCustom_valid hs
  next => exact procCustomEnv_eq_valid he hne

theorem procNodeEnv_eq_valid {h : Host} {v : String} (he : procNodeEnv h = v)
    (hne : v ≠ "") : isValidEnvironmentString v = true := by
  unfold procNodeEnv at he
  split at he
  next env _ =>
    by_cases hc : (jsTruthy (env "NODE_ENV")
        && isValidEnvironmentString (env "NODE_ENV")) = true
    · rw [if_pos hc] at he
      rw [← he]
      exact (Bool.and_eq_true _ _ |>.mp hc).2
    · rw [if_neg hc] at he
      exact absurd he.symm hne
  next => exact absurd he.symm hne

theorem getNodeEnv_eq_valid {h : Host} {v : String} (he : getNodeEnv h = v)
    (hne : v ≠ "") : isValidEnvironmentString v = true := by
  unfold getNodeEnv at he
  split at he
  next env _ =>
    simp only at he
    by_cases hc : (jsTruthy (jsOr (env "NODE_ENV") (env "VITE_NODE_ENV"))
        && isValidEnvironmentString (jsOr (env "NODE_ENV") (env "VITE_NODE_ENV"))) = true
    · rw [if_pos hc] at he
      rw [← he]
      exact (Bool.and_eq_true _ _ |>.mp hc).2
    · rw [if_neg hc] at he
      exact procNodeEnv_eq_valid he hne
  next => exact procNodeEnv_eq_valid he hne

theorem hostnameHeuristic_mem (hn : String) : hostnameHeuristic hn ∈ envNames := by
  unfold hostnameHeuristic
  split
  · simp [envNames]
  · split
    · simp [envNames]
    · split <;> simp [envNames]

theorem detectEnvironment_mem (h : Host) : detectEnvironment h ∈ envNames := by
  unfold detectEnvironment
  by_cases hc : jsTruthy (getCustomEnv h) = true
  · rw [if_pos hc]
    have : getCustomEnv h ≠ "" := by simpa [jsTruthy] using hc
    exact mem_envNames_of_valid (getCustomEnv_eq_valid rfl this)
  · rw [if_neg hc]
    by_cases hn : jsTruthy (getNodeEnv h) = true
    · rw [if_pos hn]
      have : getNodeEnv h ≠ "" := by simpa [jsTruthy] using hn
      exact mem_envNames_of_valid (getNodeEnv_eq_valid rfl this)
    · rw [if_neg hn]
      exact hostnameHeuristic_mem h.hostname

/-! ### Helper lemmas about the lifecycle -/

theorem destroy_explicit (h : Host) (s : LState) (hwf : WF h s) :
    ∃ fe, destroy h s =
      { flagElement := fe, eventListeners := [], body := [],
        pending := s.pending, nextId := s.nextId, config := s.config } := by
  obtain ⟨fe, ls, bd, pd, nx, cf⟩ := s
  obtain ⟨hbody, hnb⟩ := hwf
  simp only at hbody hnb ⊢
  cases fe with
  | none =>
    have hb : bd = [] := by
      rcases hbody with hb | ⟨e, he, hb⟩
      · exact hb
      · cases he
    subst hb
    exact ⟨none, rfl⟩
  | some e =>
    rcases hbody with hb | ⟨e2, he2, hb⟩
    · subst hb
      refine ⟨some e, ?_⟩
      unfold destroy removeFlagElement removeEventListeners
      simp
    · obtain rfl : e = e2 := by cases he2; rfl
      subst hb
      by_cases hB : h.hasBody = true
      · refine ⟨none, ?_⟩
        unfold destroy removeFlagElement removeEventListeners
        simp [hB, List.erase_cons_head]
      · have : h.hasBody = false := by revert hB; cases h.hasBody <;> simp
        have := hnb this
        simp at this

theorem init_explicit (h : Host) (s : LState) (hv : isValidEnvironment h = true)
    (he : s.config.enabled = true) (hwf : WF h s) :
    init h s = { flagElement := some s.nextId,
                 eventListeners := [(s.nextId, "click"), (s.nextId, "mouseenter"),
                                    (s.nextId, "mouseleave"), (s.nextId, "keydown")],
                 body := [], pending := s.pending + 1, nextId := s.nextId + 1,
                 config := s.config } := by
  obtain ⟨fe, hd⟩ := destroy_explicit h s hwf
  unfold init
  rw [hv, he]
  simp only [Bool.not_true, Bool.false_eq_true, if_false]
  rw [hd]
  cases fe <;> rfl

theorem init_guard_invalid (h : Host) (s : LState)
    (hv : isValidEnvironment h = false) : init h s = s := by
  unfold init
  rw [hv]
  rfl

theorem init_guard_disabled (h : Host) (s : LState)
    (he : s.config.enabled = false) : init h s = s := by
  unfold init
  by_cases hv : isValidEnvironment h = true
  · rw [hv, he]; rfl
  · have : isValidEnvironment h = false := by
      revert hv; cases isValidEnvironment h <;> simp
    rw [this]; rfl

theorem wf_init (h : Host) (s : LState) (hwf : WF h s) : WF h (init h s) := by
  by_cases hv : isValidEnvironment h = true
  · by_cases he : s.config.enabled = true
    · rw [init_explicit h s hv he hwf]
      exact ⟨Or.inl rfl, fun _ => rfl⟩
    · have : s.config.enabled = false := by
        revert he; cases s.config.enabled <;> simp
      rw [init_guard_disabled h s this]; exact hwf
  · have : isValidEnvironment h = false := by
      revert hv; cases isValidEnvironment h <;> simp
    rw [init_guard_invalid h s this]; exact hwf

theorem wf_fire (h : Host) (s : LState) (hwf : WF h s) : WF h (fireFrame h s) := by
  obtain ⟨hbody, hnb⟩ := hwf
  unfold fireFrame
  by_cases hp : s.pending = 0
  · rw [if_pos hp]; exact ⟨hbody, hnb⟩
  · rw [if_neg hp]
    cases hfe : s.flagElement with
    | none =>
      refine ⟨?_, ?_⟩
      · rcases hbody with hb | ⟨e2, he2, hb⟩
        · exact Or.inl (by simpa using hb)
        · rw [hfe] at he2; cases he2
      · intro hB
        simpa using hnb hB
    | some e =>
      simp only
      by_cases hB : h.hasBody = true
      · rw [if_pos hB]
        constructor
        · right
          refine ⟨e, by simp [hfe], ?_⟩
          rcases hbody with hb | ⟨e2, he2, hb⟩
          · simp [hb, appendChildMove]
          · obtain rfl : e = e2 := by rw [hfe] at he2; cases he2; rfl
            simp [hb, appendChildMove, List.erase_cons_head]
        · intro hB2
          rw [hB2] at hB
          simp at hB
      · have hB2 : h.hasBody = false := by revert hB; cases h.hasBody <;> simp
        rw [hB2]
        simp only [Bool.false_eq_true, if_false]
        refine ⟨?_, ?_⟩
        · rcases hbody with hb | ⟨e2, he2, hb⟩
          · exact Or.inl (by simpa using hb)
          · obtain rfl : e = e2 := by rw [hfe] at he2; cases he2; rfl
            exact Or.inr ⟨e, by simp, by simpa using hb⟩
        · intro hB3
          simpa using hnb hB3

theorem wf_iterate_fire (h : Host) (s : LState) (hwf : WF h s) :
    ∀ k, WF h ((fireFrame h)^[k] s) := by
  intro k
  induction k with
  | zero => exact hwf
  | succ m ih =>
    rw [Function.iterate_succ_apply']
    exact wf_fire h _ ih

theorem body_length_le_one (h : Host) (s : LState) (hwf : WF h s) :
    s.body.length ≤ 1 := by
  rcases hwf.1 with hb | ⟨e, _, hb⟩ <;> simp [hb]

theorem fire_pending_zero (h : Host) (s : LState) (hp : s.pending = 0) :
    fireFrame h s = s := by
  unfold fireFrame
  rw [if_pos hp]

theorem iterate_fire_pending_zero (h : Host) (s : LState) (hp : s.pending = 0) :
    ∀ k, (fireFrame h)^[k] s = s := by
  intro k
  induction k with
  | zero => rfl
  | succ m ih => rw [Function.iterate_succ_apply, fire_pending_zero h s hp, ih]

theorem flush_body (h : Host) (e : Nat) :
    ∀ (n : Nat) (s : LState), s.pending = n → h.hasBody = true →
      s.flagElement = some e → (s.body = [] ∨ s.body = [e]) → 1 ≤ n →
      ((fireFrame h)^[n] s).body = [e] := by
  intro n
  induction n with
  | zero => intro s _ _ _ _ h1; omega
  | succ m ih =>
    intro s hp hB hf hbody _
    rw [Function.iterate_succ_apply]
    have hfire : fireFrame h s = { s with pending := m, body := [e] } := by
      unfold fireFrame
      rw [hp]
      simp only [Nat.succ_ne_zero, if_false]
      simp only [hf]
      rw [if_pos hB]
      rcases hbody with hb | hb <;>
        simp [hb, appendChildMove, List.erase_cons_head, Nat.succ_sub_one]
    rw [hfire]
    cases m with
    | zero => simp
    | succ k =>
      exact ih _ (by simp) hB (by simp [hf]) (Or.inr (by simp)) (by omega)

/-! ### Claim theorems -/

/-- Claim C1, counterexample: the claim orders the hostname heuristic
staging-first, so it demands `"staging"` for the hostname
`"stage.example.com"`; the source checks production first and its marker
list lacks `"stage"`, so resolution (with no override, auto-detect on, and
no environment-variable signal) returns `"production"` there. -/
theorem c1_hostname_order_counterexample :
    getCurrentEnvironment (mkConfig {}) (hostNoSignals "stage.example.com")
      = "production"
    ∧ hostnameHeuristicClaimC1 "stage.example.com" = "staging"
    ∧ getCurrentEnvironment (mkConfig {}) (hostNoSignals "stage.example.com")
        ≠ hostnameHeuristicClaimC1 "stage.example.com" := by
  refine ⟨by decide, by decide, by decide⟩

/-- Claim C1, amended: for every hostname, when no override is configured,
auto-detect is enabled and no environment-variable signal matches,
resolution follows the production-first hostname heuristic of the source:
production if the hostname contains `"prod"`, or is nonempty and contains
none of `"localhost"`, `"127.0.0.1"`, `"dev"`, `"staging"`, `"test"`; else
staging if it contains `"staging"` or `"stage"`; else test if it contains
`"test"`; else development (including for the empty hostname). -/
theorem c1_hostname_heuristic_amended (cfg : Config) (host : Host)
    (hf : cfg.forceEnv = none) (ha : cfg.autoDetectEnv = true)
    (hc : getCustomEnv host = "") (hn : getNodeEnv host = "") :
    getCurrentEnvironment cfg host = hostnameHeuristicAmendedC1 host.hostname := by
  unfold getCurrentEnvironment detectEnvironment
  rw [hf, ha, hc, hn]
  simp [jsTruthy]
  rfl

/-- Witness for the amended claim C1 at the concrete counterexample host. -/
theorem c1_hostname_heuristic_amended_witness :
    getCurrentEnvironment (mkConfig {}) (hostNoSignals "stage.example.com")
      = hostnameHeuristicAmendedC1 "stage.example.com" :=
  c1_hostname_heuristic_amended (mkConfig {}) (hostNoSignals "stage.example.com")
    rfl rfl rfl rfl

/-- Claim C2: with no override and auto-detect enabled, a custom
environment-variable match decides the result (and is a recognized name);
with no custom match, a nonempty generic `NODE_ENV` signal decides the
result (and is a recognized name); with neither, the hostname heuristic
decides.  Hostnames and other variables are arbitrary throughout, so
lower-priority signals never affect a higher-priority match. -/
theorem c2_priority_order (cfg : Config) (host : Host)
    (hf : cfg.forceEnv = none) (ha : cfg.autoDetectEnv = true) :
    (getCustomEnv host ≠ "" →
      getCurrentEnvironment cfg host = getCustomEnv host
      ∧ isValidEnvironmentString (getCustomEnv host) = true)
    ∧ (getCustomEnv host = "" → getNodeEnv host ≠ "" →
      getCurrentEnvironment cfg host = getNodeEnv host
      ∧ isValidEnvironmentString (getNodeEnv host) = true)
    ∧ (getCustomEnv host = "" → getNodeEnv host = "" →
      getCurrentEnvironment cfg host = hostnameHeuristic host.hostname) := by
  refine ⟨?_, ?_, ?_⟩
  · intro hc
    have ht : jsTruthy (getCustomEnv host) = true := by simp [jsTruthy, hc]
    refine ⟨?_, getCustomEnv_eq_valid rfl hc⟩
    unfold getCurrentEnvironment detectEnvironment
    rw [hf, ha]
    simp [jsTruthy, ht, hc]
  · intro hc hn
    have ht : jsTruthy (getNodeEnv host) = true := by simp [jsTruthy, hn]
    refine ⟨?_, getNodeEnv_eq_valid rfl hn⟩
    unfold getCurrentEnvironment detectEnvironment
    rw [hf, ha, hc]
    simp [jsTruthy, ht, hn]
  · intro hc hn
    unfold getCurrentEnvironment detectEnvironment
    rw [hf, ha, hc, hn]
    simp [jsTruthy]

/-- Witness for claim C2: a host where the custom variable says staging, the
generic signal says production and the hostname says test resolves to
staging. -/
theorem c2_priority_order_witness :
    getCurrentEnvironment (mkConfig {}) hostC2 = getCustomEnv hostC2
    ∧ getCustomEnv hostC2 = "staging" ∧ getNodeEnv hostC2 = "production"
    ∧ hostnameHeuristic hostC2.hostname = "test" :=
  ⟨((c2_priority_order (mkConfig {}) hostC2 rfl rfl).1 (by decide)).1,
    by decide, by decide, by decide⟩

/-- Claim C3: with no override, auto-detect enabled, and no
environment-variable signal, the five concrete hostnames of the spec
resolve to staging, test, production, development and development. -/
theorem c3_hostname_examples :
    getCurrentEnvironment (mkConfig {}) (hostNoSignals "staging.example.com")
      = "staging"
    ∧ getCurrentEnvironment (mkConfig {}) (hostNoSignals "my-test-site.io")
      = "test"
    ∧ getCurrentEnvironment (mkConfig {}) (hostNoSignals "app.example.com")
      = "production"
    ∧ getCurrentEnvironment (mkConfig {}) (hostNoSignals "localhost")
      = "development"
    ∧ getCurrentEnvironment (mkConfig {}) (hostNoSignals "") = "development" := by
  refine ⟨by decide, by decide, by decide, by decide, by decide⟩

/-- Claim C4: a configured `forceEnv` override set to any of the four
environment names decides `getCurrentEnvironment` outright, for every host
(hostname and environment variables arbitrary) and regardless of
`autoDetectEnv`. -/
theorem c4_forceEnv_override (cfg : Config) (host : Host) (e : String)
    (he : e ∈ envNames) (hf : cfg.forceEnv = some e) :
    getCurrentEnvironment cfg host = e := by
  have hne : e ≠ "" := ne_empty_of_mem_envNames he
  unfold getCurrentEnvironment
  rw [hf]
  simp [jsTruthy, hne]

/-- Witness for claim C4: forcing test with auto-detect disabled, against a
host whose signals say staging/production, yields test. -/
theorem c4_forceEnv_override_witness :
    getCurrentEnvironment
      (mkConfig { forceEnv := some "test", autoDetectEnv := some false })
      hostC2 = "test" :=
  c4_forceEnv_override _ hostC2 "test" (by decide) rfl

/-- Claim C5: `init` preserves the zero-or-one-indicator invariant; after two
consecutive `init` calls from any well-formed state, the document never
holds more than one indicator element at any later point, and exactly one
once the pending animation-frame callbacks have fired (when the guards
pass and the document has a body). -/
theorem c5_init_twice_single_flag (h : Host) (s : LState) (hwf : WF h s) :
    WF h (init h s)
    ∧ (∀ k : Nat, ((fireFrame h)^[k] (init h (init h s))).body.length ≤ 1)
    ∧ (isValidEnvironment h = true → s.config.enabled = true →
        h.hasBody = true →
        (flushFrames h (init h (init h s))).body.length = 1) := by
  have hwf1 := wf_init h s hwf
  have hwf2 := wf_init h _ hwf1
  refine ⟨hwf1, ?_, ?_⟩
  · intro k
    exact body_length_le_one h _ (wf_iterate_fire h _ hwf2 k)
  · intro hv he hB
    have h1 := init_explicit h s hv he hwf
    have he1 : (init h s).config.enabled = true := by rw [h1]; exact he
    have h2 := init_explicit h (init h s) hv he1 hwf1
    rw [h1] at h2
    simp only at h2
    have h12 : init h (init h s) =
        { flagElement := some (s.nextId + 1),
          eventListeners :=
            [(s.nextId + 1, "click"), (s.nextId + 1, "mouseenter"),
             (s.nextId + 1, "mouseleave"), (s.nextId + 1, "keydown")],
          body := [], pending := s.pending + 1 + 1, nextId := s.nextId + 1 + 1,
          config := s.config } := by
      rw [h1]
      exact h2
    unfold flushFrames
    rw [h12]
    have hfl := flush_body h (s.nextId + 1)
      (LState.pending
        { flagElement := some (s.nextId + 1),
          eventListeners :=
            [(s.nextId + 1, "click"), (s.nextId + 1, "mouseenter"),
             (s.nextId + 1, "mouseleave"), (s.nextId + 1, "keydown")],
          body := [], pending := s.pending + 1 + 1, nextId := s.nextId + 1 + 1,
          config := s.config })
      { flagElement := some (s.nextId + 1),
        eventListeners :=
          [(s.nextId + 1, "click"), (s.nextId + 1, "mouseenter"),
           (s.nextId + 1, "mouseleave"), (s.nextId + 1, "keydown")],
        body := [], pending := s.pending + 1 + 1, nextId := s.nextId + 1 + 1,
        config := s.config }
      rfl hB rfl (Or.inl rfl) (Nat.succ_le_succ (Nat.zero_le _))
    rw [hfl]
    rfl

/-- Witness for claim C5 at a fresh component in a browser host. -/
theorem c5_init_twice_single_flag_witness :
    (flushFrames (hostNoSignals "app.example.com")
      (init (hostNoSignals "app.example.com")
        (init (hostNoSignals "app.example.com")
          (freshState (mkConfig {}))))).body.length = 1 :=
  (c5_init_twice_single_flag (hostNoSignals "app.example.com")
    (freshState (mkConfig {})) ⟨Or.inl rfl, fun _ => rfl⟩).2.2 rfl rfl rfl

/-- Claim C6, failing interleaving: from a fresh component in a browser host,
`init()` then `destroy()` before the scheduled animation-frame callback
fires, then the callback: the listener registry is empty as claimed, but
the document holds one indicator element, not zero — the callback appends
the still-referenced flag element after `destroy` (the code never nulls a
not-yet-inserted `flagElement`). -/
theorem c6_destroy_race_leaves_flag :
    (fireFrame (hostNoSignals "app.example.com")
      (destroy (hostNoSignals "app.example.com")
        (init (hostNoSignals "app.example.com")
          (freshState (mkConfig {}))))).body.length = 1
    ∧ (fireFrame (hostNoSignals "app.example.com")
        (destroy (hostNoSignals "app.example.com")
          (init (hostNoSignals "app.example.com")
            (freshState (mkConfig {}))))).eventListeners = [] := by
  refine ⟨by decide, by decide⟩

/-- Claim C7, counterexample: with `enabled` false and an indicator element
already present from a previous `init`, calling `init()` leaves the element
in the document (the guard returns before the destroy step), so "no
indicator element present" fails for that state. -/
theorem c7_disabled_counterexample :
    (init (hostNoSignals "app.example.com") disabledPresentState).body.length
      = 1 := by
  decide

/-- Claim C7, amended: when `enabled` is false, `init()` is a no-op — the
component state (and hence the document) is unchanged; in particular, from
any state with no indicator element present, none is present afterwards.
A pre-existing element, however, remains. -/
theorem c7_disabled_init_noop (h : Host) (s : LState)
    (he : s.config.enabled = false) :
    init h s = s ∧ (s.body = [] → (init h s).body = []) := by
  have h0 := init_guard_disabled h s he
  exact ⟨h0, fun hb => by rw [h0, hb]⟩

/-- Witness for the amended claim C7 at a fresh disabled component. -/
theorem c7_disabled_init_noop_witness :
    init (hostNoSignals "app.example.com")
        (freshState (mkConfig { enabled := some false }))
      = freshState (mkConfig { enabled := some false }) :=
  (c7_disabled_init_noop (hostNoSignals "app.example.com")
    (freshState (mkConfig { enabled := some false })) rfl).1

/-- Claim C8: in the `try`/`catch` variant of `init`
(`src/src/index.ts`), every exception raised inside the body is caught at
the top level — the caller always receives a state, never an exception —
and when an exception is raised from a quiescent well-formed state (no
pending insertion), the resulting component is indistinguishable from
ABSENT: no indicator element in the document, an empty listener registry,
and firing any number of animation-frame callbacks inserts nothing. -/
theorem c8_init_catches (fault : Bool) (h : Host) (s : LState) (hwf : WF h s) :
    (∀ sE, initBody fault h s = Except.error sE → initCatch fault h s = sE)
    ∧ (fault = true → isValidEnvironment h = true → s.config.enabled = true →
        s.pending = 0 →
        initBody fault h s = Except.error (destroy h s)
        ∧ (initCatch fault h s).body = []
        ∧ (initCatch fault h s).eventListeners = []
        ∧ ∀ k, ((fireFrame h)^[k] (initCatch fault h s)).body = []) := by
  constructor
  · intro sE hE
    unfold initCatch
    rw [hE]
  · intro hfa hv he hp
    have hbody : initBody fault h s = Except.error (destroy h s) := by
      unfold initBody createFlagE
      rw [hv, he, hfa]
      rfl
    obtain ⟨fe, hd⟩ := destroy_explicit h s hwf
    have hcatch : initCatch fault h s = destroy h s := by
      unfold initCatch
      rw [hbody]
    refine ⟨hbody, ?_, ?_, ?_⟩
    · rw [hcatch, hd]
    · rw [hcatch, hd]
    · intro k
      have hp0 : (destroy h s).pending = 0 := by rw [hd]; exact hp
      rw [hcatch, iterate_fire_pending_zero h _ hp0 k, hd]

/-- Witness for claim C8: an injected creation failure on a fresh component
leaves an empty document and an empty listener registry. -/
theorem c8_init_catches_witness :
    (initCatch true (hostNoSignals "app.example.com")
      (freshState (mkConfig {}))).body = []
    ∧ (initCatch true (hostNoSignals "app.example.com")
        (freshState (mkConfig {}))).eventListeners = [] :=
  let r := (c8_init_catches true (hostNoSignals "app.example.com")
    (freshState (mkConfig {})) ⟨Or.inl rfl, fun _ => rfl⟩).2 rfl rfl rfl rfl
  ⟨r.2.1, r.2.2.1⟩

/-- Claim C9: `updateConfig` first merges the partial over the existing
resolved configuration (then re-runs `init`, so detection and rendering see
a fully resolved record); merging with an empty partial changes nothing,
and field by field the merge takes the partial's value when the key is
present and keeps the existing value when it is absent. -/
theorem c9_updateConfig_merges (h : Host) (s : LState) (p : ConfigP) :
    updateConfig h s p = init h { s with config := mergeConfig s.config p }
    ∧ (∀ c : Config, mergeConfig c {} = c)
    ∧ ∀ c : Config,
        (mergeConfig c p).productionColor = p.productionColor.getD c.productionColor
        ∧ (mergeConfig c p).developmentColor = p.developmentColor.getD c.developmentColor
        ∧ (mergeConfig c p).stagingColor = p.stagingColor.getD c.stagingColor
        ∧ (mergeConfig c p).testColor = p.testColor.getD c.testColor
        ∧ (mergeConfig c p).productionText = p.productionText.getD c.productionText
        ∧ (mergeConfig c p).developmentText = p.developmentText.getD c.developmentText
        ∧ (mergeConfig c p).stagingText = p.stagingText.getD c.stagingText
        ∧ (mergeConfig c p).testText = p.testText.getD c.testText
        ∧ (mergeConfig c p).position = p.position.getD c.position
        ∧ (mergeConfig c p).size = p.size.getD c.size
        ∧ (mergeConfig c p).autoDetectEnv = p.autoDetectEnv.getD c.autoDetectEnv
        ∧ (mergeConfig c p).enabled = p.enabled.getD c.enabled
        ∧ (mergeConfig c p).debug = p.debug.getD c.debug
        ∧ (p.forceEnv = none → (mergeConfig c p).forceEnv = c.forceEnv)
        ∧ ∀ v, p.forceEnv = some v → (mergeConfig c p).forceEnv = some v := by
  refine ⟨rfl, fun c => rfl, fun c => ?_⟩
  refine ⟨rfl, rfl, rfl, rfl, rfl, rfl, rfl, rfl, rfl, rfl, rfl, rfl, rfl,
    ?_, ?_⟩
  · intro hfe
    simp [mergeConfig, hfe]
  · intro v hfe
    simp [mergeConfig, hfe]

/-- Witness for claim C9: updating only the size keeps every other resolved
field and adopts the new size before `init` re-runs. -/
theorem c9_updateConfig_merges_witness :
    updateConfig (hostNoSignals "app.example.com") (freshState (mkConfig {}))
        { size := some "large" }
      = init (hostNoSignals "app.example.com")
          { freshState (mkConfig {}) with
              config := mergeConfig (mkConfig {}) { size := some "large" } }
    ∧ (mergeConfig (mkConfig {}) { size := some "large" }).size = "large"
    ∧ (mergeConfig (mkConfig {}) { size := some "large" }).position
        = "bottom-right" :=
  ⟨(c9_updateConfig_merges (hostNoSignals "app.example.com")
      (freshState (mkConfig {})) { size := some "large" }).1,
    by decide, by decide⟩

/-- Claim C10: for every configuration whose override is absent or one of the
four environment names, and arbitrary host strings everywhere else,
`getCurrentEnvironment` returns one of exactly the four environment names,
and the environment-variable readers only ever surface recognized names —
unrecognized values are skipped. -/
theorem c10_total_recognized (cfg : Config) (host : Host)
    (hf : cfg.forceEnv = none ∨ ∃ e, cfg.forceEnv = some e ∧ e ∈ envNames) :
    getCurrentEnvironment cfg host ∈ envNames
    ∧ (getCustomEnv host ≠ "" → getCustomEnv host ∈ envNames)
    ∧ (getNodeEnv host ≠ "" → getNodeEnv host ∈ envNames) := by
  refine ⟨?_, fun hc => mem_envNames_of_valid (getCustomEnv_eq_valid rfl hc),
    fun hn => mem_envNames_of_valid (getNodeEnv_eq_valid rfl hn)⟩
  unfold getCurrentEnvironment
  rcases hf with hf | ⟨e, hf, he⟩
  · rw [hf]
    simp only [Option.getD_none]
    have : jsTruthy "" = false := by simp [jsTruthy]
    rw [this]
    simp only [Bool.false_eq_true, if_false]
    by_cases ha : cfg.autoDetectEnv = true
    · rw [ha]
      simpa using detectEnvironment_mem host
    · have ha2 : cfg.autoDetectEnv = false := by
        revert ha; cases cfg.autoDetectEnv <;> simp
      rw [ha2]
      simp [envNames]
  · rw [hf]
    have hne : e ≠ "" := ne_empty_of_mem_envNames he
    simp only [Option.getD_some]
    have : jsTruthy e = true := by simp [jsTruthy, hne]
    rw [this]
    simpa using he

/-- Witness for claim C10: an unrecognized custom value (`"prod"`) is
skipped and resolution still lands in the four-name enumeration. -/
theorem c10_total_recognized_witness :
    getCurrentEnvironment (mkConfig {}) hostC10 ∈ envNames
    ∧ getCurrentEnvironment (mkConfig {}) hostC10 = "development" :=
  ⟨(c10_total_recognized (mkConfig {}) hostC10 (Or.inl rfl)).1, by decide⟩

end EnvFlag
